import Mathlib

/-
  Verification of the mushroom demand-forecasting data generator
  (`data_generation.py`) against its natural-language specification.

  The Python source is shallowly embedded in Lean:
  * exact arithmetic uses `ℚ` (binary floating point is not modelled;
    the spec's "within floating tolerance" properties are settled in
    exact arithmetic);
  * Python's `int(x)` truncation toward zero is `pyInt`;
  * Python's `round(x, n)` (round-half-to-even) is `pyRound`;
  * the ambient `random` module is an explicit oracle `RNG`: a stream
    `unit` of uniform-[0,1) draws consumed one per call by
    `random()` / `uniform` / `randint`, and a stream `gauss` of
    standard-normal draws consumed by `normalvariate` (the normal
    distribution has unbounded support, so `gauss` is unconstrained);
    the pair of cursors into the two streams is `RState`;
  * the floating-point transcendental primitives (`**` with fractional
    exponent, `np.sin`) are abstracted as a `Prim` record of functions;
    their mathematical meaning (real `rpow`) is used where a claim is
    about the elasticity exponent itself;
  * the calendar (`datetime`) is a day/hour number (`ℤ`) plus a `Cal`
    record giving the month and weekday of a day number; the wall clock
    (`datetime.today()` / `datetime.now()`) is an explicit argument.
-/

/-- The two sales channels, `CHANNELS = ['B2B', 'B2C']`. -/
inductive Channel : Type
  | B2B
  | B2C
deriving DecidableEq, Repr

def channelName : Channel → String
  | .B2B => "B2B"
  | .B2C => "B2C"

/-- Line 80: `base_demand = 50 if channel == 'B2C' else 200`. -/
def baseDemand : Channel → ℚ
  | .B2B => 200
  | .B2C => 50

/-- Line 93: `elasticity = -1.5 if channel == 'B2C' else -0.8`. -/
def elasticity : Channel → ℚ
  | .B2B => -4/5
  | .B2C => -3/2

/-- Line 91: channel markup, `1.2 if channel == 'B2B' else 1.5`. -/
def markup : Channel → ℚ
  | .B2B => 6/5
  | .B2C => 3/2

/-- Python's `int(x)`: truncation toward zero. -/
def pyInt (q : ℚ) : ℤ := if 0 ≤ q then ⌊q⌋ else -⌊-q⌋

/-- Round half to even to an integer (Python's banker's rounding). -/
def roundHalfEven (q : ℚ) : ℤ :=
  if q - ⌊q⌋ < 1/2 then ⌊q⌋
  else if 1/2 < q - ⌊q⌋ then ⌊q⌋ + 1
  else if Even ⌊q⌋ then ⌊q⌋ else ⌊q⌋ + 1

/-- Python's `round(q, n)` in exact arithmetic. -/
def pyRound (q : ℚ) (n : ℕ) : ℚ := (roundHalfEven (q * 10 ^ n) : ℚ) / 10 ^ n

/-- Line 98: the final demand,
`int(base_demand * season_factor * weekday_factor * fasting_impact *
wedding_impact * price_factor * noise)`; the price-elasticity factor is
passed in as computed at lines 91-94. -/
def demandUnits (ch : Channel) (season weekday fasting wedding priceFactor noise : ℚ) : ℤ :=
  pyInt (baseDemand ch * season * weekday * fasting * wedding * priceFactor * noise)

/-- Line 106: `sales_units = min(demand_units, int(inventory_received / pkg_size))`. -/
def salesUnits (demand : ℤ) (inventory pkg : ℚ) : ℤ :=
  min demand (pyInt (inventory / pkg))

/-- Line 107: `sales_kg = sales_units * pkg_size`. -/
def salesKg (demand : ℤ) (inventory pkg : ℚ) : ℚ :=
  (salesUnits demand inventory pkg : ℚ) * pkg

/-- Line 111: `decay_rate = 0.1 + (0.05 if temp_max > 30 else 0) + (0.05 if humidity > 80 else 0)`. -/
def decayRate (tempMax humidity : ℚ) : ℚ :=
  1/10 + (if tempMax > 30 then 1/20 else 0) + (if humidity > 80 then 1/20 else 0)

/-- Line 110: `unsold_kg = max(0, inventory_received - sales_kg)`. -/
def unsoldKg (inventory salesKgV : ℚ) : ℚ := max 0 (inventory - salesKgV)

/-- Line 112: `wastage_kg = unsold_kg * decay_rate`. -/
def wastageKg (inventory salesKgV tempMax humidity : ℚ) : ℚ :=
  unsoldKg inventory salesKgV * decayRate tempMax humidity

lemma pyInt_of_nonneg {q : ℚ} (h : 0 ≤ q) : pyInt q = ⌊q⌋ := by
  simp [pyInt, h]

lemma pyInt_nonneg {q : ℚ} (h : 0 ≤ q) : 0 ≤ pyInt q := by
  rw [pyInt_of_nonneg h]
  exact Int.floor_nonneg.mpr h

lemma baseDemand_nonneg (ch : Channel) : 0 ≤ baseDemand ch := by
  cases ch <;> norm_num [baseDemand]

/-- Claim C2: for every historical row, `demand_units` is the floor of
`base_demand × season_factor × weekday_factor × fasting_impact ×
wedding_impact × price_factor × noise` (the generator's factors are all
nonnegative, where Python's `int` truncation coincides with floor);
`base_demand` is 200 for the B2B channel and 50 for B2C; and on the
spec's end-to-end example (B2B, season 1.0, weekday 1.1, fasting 1.0,
wedding 1.0, price factor 1.0, noise 1.0) the result is
`floor(200 × 1.1) = 220`. -/
theorem demandUnits_eq_floor (ch : Channel) (season weekday fasting wedding priceFactor noise : ℚ)
    (hs : 0 ≤ season) (hw : 0 ≤ weekday) (hf : 0 ≤ fasting) (hwd : 0 ≤ wedding)
    (hpf : 0 ≤ priceFactor) (hn : 0 ≤ noise) :
    demandUnits ch season weekday fasting wedding priceFactor noise =
      ⌊baseDemand ch * season * weekday * fasting * wedding * priceFactor * noise⌋ ∧
    baseDemand .B2B = 200 ∧ baseDemand .B2C = 50 ∧
    demandUnits .B2B 1 (11/10) 1 1 1 1 = 220 := by
  refine ⟨?_, rfl, rfl, by norm_num [demandUnits, pyInt, baseDemand]⟩
  have hb := baseDemand_nonneg ch
  exact pyInt_of_nonneg (by positivity)

theorem demandUnits_eq_floor_witness :
    (0:ℚ) ≤ 1 ∧
    (demandUnits .B2B 1 (11/10) (7/10) 1 1 1 =
        ⌊baseDemand .B2B * 1 * (11/10) * (7/10) * 1 * 1 * 1⌋ ∧
      baseDemand .B2B = 200 ∧ baseDemand .B2C = 50 ∧
      demandUnits .B2B 1 (11/10) 1 1 1 1 = 220) :=
  ⟨by norm_num,
    demandUnits_eq_floor .B2B 1 (11/10) (7/10) 1 1 1 (by norm_num) (by norm_num)
      (by norm_num) (by norm_num) (by norm_num) (by norm_num)⟩

/-- Claim C5: the generated demand is never negative: whenever the
composed factors are nonnegative (as all the generator's sampled factor
ranges are), `demand_units ≥ 0`. -/
theorem demandUnits_nonneg (ch : Channel) (season weekday fasting wedding priceFactor noise : ℚ)
    (hs : 0 ≤ season) (hw : 0 ≤ weekday) (hf : 0 ≤ fasting) (hwd : 0 ≤ wedding)
    (hpf : 0 ≤ priceFactor) (hn : 0 ≤ noise) :
    0 ≤ demandUnits ch season weekday fasting wedding priceFactor noise := by
  have hb := baseDemand_nonneg ch
  exact pyInt_nonneg (by positivity)

theorem demandUnits_nonneg_witness :
    (0:ℚ) ≤ 7/10 ∧ 0 ≤ demandUnits .B2C 1 (7/10) (7/10) 1 (1/2) (4/5) :=
  ⟨by norm_num,
    demandUnits_nonneg .B2C 1 (7/10) (7/10) 1 (1/2) (4/5) (by norm_num) (by norm_num)
      (by norm_num) (by norm_num) (by norm_num) (by norm_num)⟩

/-- Claim C3: the fulfillment reconciler: `sales_units` is the minimum
of demand and the floor of `inventory_received_kg / unit_size`,
`sales_kg` is exactly `sales_units × unit_size`, and consequently
`sales_units ≤ demand_units` and `sales_kg ≤ inventory_received_kg`
(for the generator's positive unit sizes and nonnegative inventory). -/
theorem salesReconciliation (demand : ℤ) (inventory pkg : ℚ)
    (hpkg : 0 < pkg) (hinv : 0 ≤ inventory) :
    salesUnits demand inventory pkg = min demand ⌊inventory / pkg⌋ ∧
    salesKg demand inventory pkg = (salesUnits demand inventory pkg : ℚ) * pkg ∧
    salesUnits demand inventory pkg ≤ demand ∧
    salesKg demand inventory pkg ≤ inventory := by
  have hdiv : (0:ℚ) ≤ inventory / pkg := by positivity
  refine ⟨by rw [salesUnits, pyInt_of_nonneg hdiv], rfl, min_le_left _ _, ?_⟩
  have h1 : salesUnits demand inventory pkg ≤ ⌊inventory / pkg⌋ := by
    rw [salesUnits, pyInt_of_nonneg hdiv]; exact min_le_right _ _
  have h2 : (salesUnits demand inventory pkg : ℚ) ≤ inventory / pkg :=
    le_trans (by exact_mod_cast h1) (Int.floor_le _)
  calc salesKg demand inventory pkg = (salesUnits demand inventory pkg : ℚ) * pkg := rfl
    _ ≤ (inventory / pkg) * pkg := by
        exact mul_le_mul_of_nonneg_right h2 (le_of_lt hpkg)
    _ = inventory := by field_simp

theorem salesReconciliation_witness :
    (0:ℚ) < 1/2 ∧
    (salesUnits 10 3 (1/2) = min 10 ⌊(3:ℚ) / (1/2)⌋ ∧
      salesKg 10 3 (1/2) = (salesUnits 10 3 (1/2) : ℚ) * (1/2) ∧
      salesUnits 10 3 (1/2) ≤ 10 ∧
      salesKg 10 3 (1/2) ≤ 3) :=
  ⟨by norm_num, salesReconciliation 10 3 (1/2) (by norm_num) (by norm_num)⟩

/-- Claim C4: the wastage model: `wastage_kg` is the unsold surplus
`max(0, inventory − sales_kg)` times the decay rate; the decay rate is
one of 0.10, 0.15, 0.20 (base 0.10, +0.05 when `temp_max > 30`, +0.05
when `humidity > 80`); whenever `sales_kg ≤ inventory`, wastage is
between 0 and `inventory − sales_kg`; and holding humidity fixed, a row
with `temp_max > 30` has decay rate ≥ one with `temp_max ≤ 30`. -/
theorem wastage_spec (inventory skg tempMax humidity : ℚ) (hle : skg ≤ inventory) :
    wastageKg inventory skg tempMax humidity =
      max 0 (inventory - skg) * decayRate tempMax humidity ∧
    (decayRate tempMax humidity = 1/10 ∨ decayRate tempMax humidity = 3/20 ∨
      decayRate tempMax humidity = 1/5) ∧
    0 ≤ wastageKg inventory skg tempMax humidity ∧
    wastageKg inventory skg tempMax humidity ≤ inventory - skg ∧
    (∀ t1 t2 : ℚ, t1 ≤ 30 → 30 < t2 →
      decayRate t1 humidity ≤ decayRate t2 humidity) := by
  have hsurplus : max 0 (inventory - skg) = inventory - skg := by
    rw [max_eq_right]; linarith
  have hrange : decayRate tempMax humidity = 1/10 ∨ decayRate tempMax humidity = 3/20 ∨
      decayRate tempMax humidity = 1/5 := by
    unfold decayRate
    rcases lt_or_le 30 tempMax with h1 | h1 <;> rcases lt_or_le 80 humidity with h2 | h2 <;>
      simp [h1, h2, not_lt_of_le] <;> norm_num
  have hpos : 0 ≤ decayRate tempMax humidity := by
    rcases hrange with h | h | h <;> rw [h] <;> norm_num
  have hone : decayRate tempMax humidity ≤ 1 := by
    rcases hrange with h | h | h <;> rw [h] <;> norm_num
  refine ⟨rfl, hrange, ?_, ?_, ?_⟩
  · exact mul_nonneg (le_max_left _ _) hpos
  · rw [wastageKg, unsoldKg, hsurplus]
    calc (inventory - skg) * decayRate tempMax humidity ≤ (inventory - skg) * 1 :=
          mul_le_mul_of_nonneg_left hone (by linarith)
      _ = inventory - skg := mul_one _
  · intro t1 t2 h1 h2
    unfold decayRate
    have e1 : ¬ t1 > 30 := not_lt_of_le h1
    simp only [e1, if_false, if_true, h2]
    rcases lt_or_le 80 humidity with h3 | h3 <;> simp [h3, not_lt_of_le]

theorem wastage_spec_witness :
    (1:ℚ) ≤ 2 ∧
    (wastageKg 2 1 35 50 = max 0 (2 - 1) * decayRate 35 50 ∧
      (decayRate 35 50 = 1/10 ∨ decayRate 35 50 = 3/20 ∨ decayRate 35 50 = 1/5) ∧
      0 ≤ wastageKg 2 1 35 50 ∧
      wastageKg 2 1 35 50 ≤ 2 - 1 ∧
      (∀ t1 t2 : ℚ, t1 ≤ 30 → 30 < t2 → decayRate t1 50 ≤ decayRate t2 50)) :=
  ⟨by norm_num, wastage_spec 2 1 35 50 (by norm_num)⟩

/-
  Real-valued semantics of the price-elasticity factor (lines 90-98).
  The Python `**` on floats means the real power function; the claim
  about elasticity direction is a claim about that function, so this
  part of the demand model is embedded over `ℝ` with `Real.rpow`.
-/

/-- Line 94: `price_factor = (price_offered / optimal_price) ** elasticity`. -/
noncomputable def priceFactorR (priceOffered optimalPrice e : ℝ) : ℝ :=
  (priceOffered / optimalPrice) ^ e

/-- The channel elasticity as a real number (line 93). -/
def elasticityR (ch : Channel) : ℝ := ((elasticity ch : ℚ) : ℝ)

open Classical in
/-- Python's `int` truncation toward zero, on reals. -/
noncomputable def pyIntR (x : ℝ) : ℤ := if 0 ≤ x then ⌊x⌋ else -⌊-x⌋

/-- The real value whose truncation is `demand_units` (line 98), with the
price-elasticity factor computed from the offered and optimal prices. -/
noncomputable def demandValR (ch : Channel)
    (season weekday fasting wedding noise priceOffered optimalPrice : ℝ) : ℝ :=
  ((baseDemand ch : ℚ) : ℝ) * season * weekday * fasting * wedding *
    priceFactorR priceOffered optimalPrice (elasticityR ch) * noise

/-- Line 98 over the reals: `demand_units` as a function of the offered price. -/
noncomputable def demandUnitsR (ch : Channel)
    (season weekday fasting wedding noise priceOffered optimalPrice : ℝ) : ℤ :=
  pyIntR (demandValR ch season weekday fasting wedding noise priceOffered optimalPrice)

lemma elasticityR_neg (ch : Channel) : elasticityR ch < 0 := by
  cases ch <;> norm_num [elasticityR, elasticity]

lemma pyIntR_of_nonneg {x : ℝ} (h : 0 ≤ x) : pyIntR x = ⌊x⌋ := by
  simp [pyIntR, h]

lemma priceFactorR_pos {p pstar : ℝ} (hp : 0 < p) (hps : 0 < pstar) (e : ℝ) :
    0 < priceFactorR p pstar e :=
  Real.rpow_pos_of_pos (div_pos hp hps) e

lemma priceFactorR_lt_of_lt {p1 p2 pstar e : ℝ} (hps : 0 < pstar) (hp1 : 0 < p1)
    (h12 : p1 < p2) (he : e < 0) :
    priceFactorR p2 pstar e < priceFactorR p1 pstar e := by
  unfold priceFactorR
  have hx1 : 0 < p1 / pstar := div_pos hp1 hps
  have hx2 : 0 < p2 / pstar := div_pos (lt_trans hp1 h12) hps
  exact (Real.rpow_lt_rpow_iff_of_neg hx2 hx1 he).mpr (by gcongr)

lemma demandValR_pos {ch : Channel} {season weekday fasting wedding noise p pstar : ℝ}
    (hs : 0 < season) (hw : 0 < weekday) (hf : 0 < fasting) (hwd : 0 < wedding)
    (hn : 0 < noise) (hp : 0 < p) (hps : 0 < pstar) :
    0 < demandValR ch season weekday fasting wedding noise p pstar := by
  have hb : (0:ℝ) < ((baseDemand ch : ℚ) : ℝ) := by
    cases ch <;> norm_num [baseDemand]
  have hpf := priceFactorR_pos hp hps (elasticityR ch)
  unfold demandValR
  positivity

/-- Claim C7 (amended): holding every other factor fixed, increasing the
offered price strictly decreases the real-valued demand (the elasticity
exponent is negative for both channels), and hence never increases the
integer `demand_units`; the integer value itself need not strictly
decrease because of the final floor. -/
theorem demand_antitone_in_price (ch : Channel)
    (season weekday fasting wedding noise pstar p1 p2 : ℝ)
    (hs : 0 < season) (hw : 0 < weekday) (hf : 0 < fasting) (hwd : 0 < wedding)
    (hn : 0 < noise) (hps : 0 < pstar) (hp1 : 0 < p1) (h12 : p1 < p2) :
    demandValR ch season weekday fasting wedding noise p2 pstar <
      demandValR ch season weekday fasting wedding noise p1 pstar ∧
    demandUnitsR ch season weekday fasting wedding noise p2 pstar ≤
      demandUnitsR ch season weekday fasting wedding noise p1 pstar := by
  have hpf := priceFactorR_lt_of_lt hps hp1 h12 (elasticityR_neg ch)
  have hb : (0:ℝ) < ((baseDemand ch : ℚ) : ℝ) := by
    cases ch <;> norm_num [baseDemand]
  have hval : demandValR ch season weekday fasting wedding noise p2 pstar <
      demandValR ch season weekday fasting wedding noise p1 pstar := by
    unfold demandValR
    have hA : (0:ℝ) < ((baseDemand ch : ℚ) : ℝ) * season * weekday * fasting * wedding := by
      positivity
    exact mul_lt_mul_of_pos_right (mul_lt_mul_of_pos_left hpf hA) hn
  have h2pos : 0 < demandValR ch season weekday fasting wedding noise p2 pstar :=
    demandValR_pos hs hw hf hwd hn (lt_trans hp1 h12) hps
  refine ⟨hval, ?_⟩
  unfold demandUnitsR
  rw [pyIntR_of_nonneg (le_of_lt h2pos),
    pyIntR_of_nonneg (le_of_lt (lt_trans h2pos hval))]
  exact Int.floor_le_floor (le_of_lt hval)

theorem demand_antitone_in_price_witness :
    (0:ℝ) < 1 ∧
    (demandValR .B2C 1 1 1 1 1 2 1 < demandValR .B2C 1 1 1 1 1 1 1 ∧
      demandUnitsR .B2C 1 1 1 1 1 2 1 ≤ demandUnitsR .B2C 1 1 1 1 1 1 1) :=
  ⟨by norm_num,
    demand_antitone_in_price .B2C 1 1 1 1 1 1 1 2 (by norm_num) (by norm_num) (by norm_num)
      (by norm_num) (by norm_num) (by norm_num) (by norm_num) (by norm_num)⟩

lemma rpow_sq_neg_three_halves {x : ℝ} (hx : 0 ≤ x) :
    (x ^ (2:ℕ) : ℝ) ^ (-(3/2) : ℝ) = (x ^ (3:ℕ))⁻¹ := by
  rw [← Real.rpow_natCast x 2, ← Real.rpow_mul hx]
  have h : ((2:ℕ) : ℝ) * (-(3/2)) = -(((3:ℕ) : ℝ)) := by norm_num
  rw [h, Real.rpow_neg hx, Real.rpow_natCast]

/-- Claim C7 is false as stated: demand truncation to an integer makes
the price response only weakly decreasing.  For the B2C channel with
all other factors 1 and optimal price 1, the offered prices
`(100/99)²` and `(253/250)²` satisfy `p1 < p2` yet both give
`demand_units = 48`: increasing the offered price did not strictly
decrease `demand_units`. -/
theorem demand_strict_decrease_counterexample :
    ((100/99 : ℝ) ^ (2:ℕ)) < ((253/250 : ℝ) ^ (2:ℕ)) ∧
    demandUnitsR .B2C 1 1 1 1 1 ((100/99 : ℝ) ^ (2:ℕ)) 1 = 48 ∧
    demandUnitsR .B2C 1 1 1 1 1 ((253/250 : ℝ) ^ (2:ℕ)) 1 = 48 := by
  have he : elasticityR .B2C = (-(3/2) : ℝ) := by
    norm_num [elasticityR, elasticity]
  have hb : ((baseDemand .B2C : ℚ) : ℝ) = 50 := by norm_num [baseDemand]
  refine ⟨by norm_num, ?_, ?_⟩
  · have hval : demandValR .B2C 1 1 1 1 1 ((100/99 : ℝ) ^ (2:ℕ)) 1 =
        50 * ((99/100 : ℝ) ^ (3:ℕ)) := by
      unfold demandValR priceFactorR
      rw [he, hb, div_one, rpow_sq_neg_three_halves (by norm_num)]
      norm_num
    unfold demandUnitsR
    rw [hval, pyIntR_of_nonneg (by positivity)]
    norm_num [Int.floor_eq_iff]
  · have hval : demandValR .B2C 1 1 1 1 1 ((253/250 : ℝ) ^ (2:ℕ)) 1 =
        50 * ((250/253 : ℝ) ^ (3:ℕ)) := by
      unfold demandValR priceFactorR
      rw [he, hb, div_one, rpow_sq_neg_three_halves (by norm_num)]
      norm_num
    unfold demandUnitsR
    rw [hval, pyIntR_of_nonneg (by positivity)]
    norm_num [Int.floor_eq_iff]

/-
  The random oracle.  `unit` is the stream of uniform-[0,1) draws
  consumed (one per call, in program order) by `random.random()`,
  `random.uniform` and `random.randint`; `gauss` is the stream of
  standard-normal draws consumed by `random.normalvariate`.  `RState`
  holds the cursors into the two streams.
-/

structure RNG : Type where
  unit : ℕ → ℚ
  gauss : ℕ → ℚ

structure RState : Type where
  u : ℕ
  g : ℕ

/-- `random.random()`. -/
def pyRandom (r : RNG) (s : RState) : ℚ × RState :=
  (r.unit s.u, ⟨s.u + 1, s.g⟩)

/-- `random.uniform(a, b)`: `a + (b − a)·u` for a unit draw `u`. -/
def pyUniform (a b : ℚ) (r : RNG) (s : RState) : ℚ × RState :=
  (a + (b - a) * r.unit s.u, ⟨s.u + 1, s.g⟩)

/-- `random.randint(a, b)`: `a + ⌊u·(b − a + 1)⌋` for a unit draw `u`. -/
def pyRandint (a b : ℤ) (r : RNG) (s : RState) : ℤ × RState :=
  (a + ⌊r.unit s.u * ((b - a + 1 : ℤ) : ℚ)⌋, ⟨s.u + 1, s.g⟩)

/-- `random.normalvariate(mu, sigma)`: `mu + sigma·g` for a normal draw `g`. -/
def pyNormal (mu sigma : ℚ) (r : RNG) (s : RState) : ℚ × RState :=
  (mu + sigma * r.gauss s.g, ⟨s.u, s.g + 1⟩)

/-- The floating-point transcendental primitives of the host, abstracted:
`fpow` is `**` as used at line 94, `sin2pi` is the value of
`np.sin(2·π·day_offset/365)` at line 47. -/
structure Prim : Type where
  fpow : ℚ → ℚ → ℚ
  sin2pi : ℕ → ℚ

/-- The calendar: month and weekday (Monday = 0) of a day number. -/
structure Cal : Type where
  monthOf : ℤ → ℕ
  weekdayOf : ℤ → ℕ

/-- The configuration constants of lines 7-25, treated as injected
configuration.  `storesPerRegion` is `STORES_PER_REGION` (line 18). -/
structure Config : Type where
  numDays : ℕ
  regions : List String
  skus : List (String × ℚ)
  channels : List Channel
  seasonality : List (ℕ × ℚ)
  weekdayFactors : Channel → List ℚ
  storesPerRegion : ℕ

/-- The reference configuration of lines 7-25. -/
def refConfig : Config where
  numDays := 360
  regions := ["Pune", "Nashik", "Mumbai", "Nagpur", "Aurangabad", "Kolhapur",
    "Solapur", "Amravati", "Nanded", "Jalgaon"]
  skus := [("MUSH-200g", 1/5), ("MUSH-250g", 1/4), ("MUSH-500g", 1/2),
    ("MUSH-1kg", 1), ("MUSH-5kg", 5)]
  channels := [.B2B, .B2C]
  seasonality := [(11, 6/5), (12, 13/10), (1, 11/10)]
  weekdayFactors := fun ch => match ch with
    | .B2B => [11/10, 11/10, 11/10, 6/5, 13/10, 4/5, 7/10]
    | .B2C => [4/5, 4/5, 4/5, 9/10, 11/10, 13/10, 6/5]
  storesPerRegion := 5

/-- Sequentially run an emitting body over a list, threading the random
cursor and concatenating the emitted rows (the `for` loops of the
generators, with `data.append`). -/
def foldEmit {α β : Type} (f : α → RState → List β × RState) :
    List α → RState → List β × RState
  | [], s => ([], s)
  | a :: l, s =>
    let p := f a s
    let q := foldEmit f l p.2
    (p.1 ++ q.1, q.2)

lemma foldEmit_nil {α β : Type} (f : α → RState → List β × RState) (s : RState) :
    foldEmit f [] s = ([], s) := rfl

lemma foldEmit_cons {α β : Type} (f : α → RState → List β × RState) (a : α)
    (l : List α) (s : RState) :
    foldEmit f (a :: l) s =
      ((f a s).1 ++ (foldEmit f l (f a s).2).1, (foldEmit f l (f a s).2).2) := rfl

lemma foldEmit_length {α β : Type} (f : α → RState → List β × RState) (k : ℕ)
    (L : List α) (hf : ∀ a ∈ L, ∀ s, ((f a s).1).length = k) (s : RState) :
    ((foldEmit f L s).1).length = L.length * k := by
  induction L generalizing s with
  | nil => simp [foldEmit_nil]
  | cons a l ih =>
    rw [foldEmit_cons]
    simp only [List.length_append, List.length_cons]
    rw [hf a (by simp), ih (fun b hb s2 => hf b (by simp [hb]) s2)]
    ring

/-- One output row of the historical generator (lines 114-144). -/
structure HistRow : Type where
  date : ℤ
  region_id : String
  mandi_id : String
  store_id : String
  sku_id : String
  channel : Channel
  packaging : String
  sales_units : ℤ
  sales_kg : ℚ
  inventory_received_kg : ℚ
  wastage_kg : ℚ
  price_offered_per_kg : ℚ
  optimal_price_per_kg : ℚ
  b2b_b2c_ratio : ℚ
  mandi_price_per_kg : ℚ
  mandi_price_change_1d : ℚ
  panchang_fasting_flag : ℕ
  wedding_density_30d : ℚ
  festival_flag : ℕ
  temp_max_c : ℚ
  temp_min_c : ℚ
  humidity_avg : ℚ
  rainfall_mm : ℚ
  logistics_disruption_flag : ℕ
  volatility_score_14d : ℚ
  packaging_pref_score : ℚ
  lag_1_sales : ℤ
  lag_7_sales_mean : ℚ
  label_daily_demand : ℤ

/-- Lines 79-145: the per-store row computation.  The inventory-noise
range is `(0.5, 0.8)` under a logistics disruption and `(1.0, 1.2)`
otherwise; either way exactly one uniform draw is consumed. -/
def histStore (cfg : Config) (prim : Prim) (dateNum : ℤ) (weekday month fasting : ℕ)
    (weddingD : ℚ) (festival logistics : ℕ)
    (tempMax tempMin humidity rainfall mandiPrice mandiChange : ℚ)
    (region skuId : String) (pkg : ℚ) (ch : Channel) (storeIdx : ℕ)
    (r : RNG) (s : RState) : HistRow × RState :=
  let seasonF := (cfg.seasonality.lookup month).getD 1
  let weekdayF := (cfg.weekdayFactors ch).getD weekday 0
  let fastingImpact : ℚ := if fasting = 1 ∧ ch = .B2C then 7/10 else 1
  let weddingImpact : ℚ := if ch = .B2B then 1 + weddingD else 1
  let optimalPrice := mandiPrice * markup ch + pkg * 10
  let p1 := pyUniform (19/20) (21/20) r s
  let priceOffered := optimalPrice * p1.1
  let priceFactor := prim.fpow (priceOffered / optimalPrice) (elasticity ch)
  let p2 := pyUniform (4/5) (6/5) r p1.2
  let demand := demandUnits ch seasonF weekdayF fastingImpact weddingImpact priceFactor p2.1
  let invRange : ℚ × ℚ := if logistics = 1 then (1/2, 4/5) else (1, 6/5)
  let p3 := pyUniform invRange.1 invRange.2 r p2.2
  let inventory := (demand : ℚ) * pkg * p3.1
  let sU := salesUnits demand inventory pkg
  let sK := salesKg demand inventory pkg
  let wast := wastageKg inventory sK tempMax humidity
  let p4 := pyUniform 0 1 r p3.2
  let p5 := pyUniform (3/10) (9/10) r p4.2
  let p6 := pyUniform (9/10) (11/10) r p5.2
  let p7 := pyUniform (4/5) (6/5) r p6.2
  ({ date := dateNum
     region_id := region
     mandi_id := "MANDI_" ++ region.toUpper
     store_id := region ++ "_" ++ channelName ch ++ "_" ++ toString storeIdx
     sku_id := skuId
     channel := ch
     packaging := if pkg < 1 then toString (pyInt (pkg * 1000)) ++ "g"
       else toString (pyInt pkg) ++ "kg"
     sales_units := sU
     sales_kg := pyRound sK 2
     inventory_received_kg := pyRound inventory 2
     wastage_kg := pyRound wast 2
     price_offered_per_kg := pyRound priceOffered 2
     optimal_price_per_kg := pyRound optimalPrice 2
     b2b_b2c_ratio := if ch = .B2B then 4/5 else 1/5
     mandi_price_per_kg := pyRound mandiPrice 2
     mandi_price_change_1d := pyRound mandiChange 2
     panchang_fasting_flag := fasting
     wedding_density_30d := pyRound weddingD 2
     festival_flag := festival
     temp_max_c := pyRound tempMax 1
     temp_min_c := pyRound tempMin 1
     humidity_avg := pyRound humidity 1
     rainfall_mm := pyRound rainfall 1
     logistics_disruption_flag := logistics
     volatility_score_14d := pyRound p4.1 2
     packaging_pref_score := pyRound p5.1 2
     lag_1_sales := pyInt ((sU : ℚ) * p6.1)
     lag_7_sales_mean := pyRound ((sU : ℚ) * p7.1) 2
     label_daily_demand := demand }, p7.2)

/-- Line 76: `for store_idx in range(2)` — the store count is the
hard-coded literal 2, not `cfg.storesPerRegion`. -/
def histChannel (cfg : Config) (prim : Prim) (dateNum : ℤ) (weekday month fasting : ℕ)
    (weddingD : ℚ) (festival logistics : ℕ)
    (tempMax tempMin humidity rainfall mandiPrice mandiChange : ℚ)
    (region skuId : String) (pkg : ℚ) (ch : Channel)
    (r : RNG) (s : RState) : List HistRow × RState :=
  foldEmit (fun storeIdx s2 =>
      let p := histStore cfg prim dateNum weekday month fasting weddingD festival
        logistics tempMax tempMin humidity rainfall mandiPrice mandiChange
        region skuId pkg ch storeIdx r s2
      ([p.1], p.2))
    (List.range' 0 2) s

/-- Line 70: `for channel in CHANNELS`. -/
def histSku (cfg : Config) (prim : Prim) (dateNum : ℤ) (weekday month fasting : ℕ)
    (weddingD : ℚ) (festival logistics : ℕ)
    (tempMax tempMin humidity rainfall mandiPrice mandiChange : ℚ)
    (region skuId : String) (pkg : ℚ)
    (r : RNG) (s : RState) : List HistRow × RState :=
  foldEmit (fun ch s2 =>
      histChannel cfg prim dateNum weekday month fasting weddingD festival
        logistics tempMax tempMin humidity rainfall mandiPrice mandiChange
        region skuId pkg ch r s2)
    cfg.channels s

/-- Lines 49-67: the per-region conditions and `for sku in SKUS`.
The rainfall draw at line 57 short-circuits: `random()` is consumed
only when `humidity > 70`, and `uniform(5, 100)` only when that
secondary draw succeeds. -/
def histRegion (cfg : Config) (prim : Prim) (dateNum : ℤ) (weekday month fasting : ℕ)
    (weddingD : ℚ) (festival logistics : ℕ) (baseTemp : ℚ) (region : String)
    (r : RNG) (s : RState) : List HistRow × RState :=
  let p1 := pyUniform (-3) 5 r s
  let tempMax := baseTemp + p1.1
  let p2 := pyUniform 8 15 r p1.2
  let tempMin := tempMax - p2.1
  let p3 := pyUniform 30 90 r p2.2
  let humidity := p3.1
  let pr : ℚ × RState :=
    if 70 < humidity then
      let q1 := pyRandom r p3.2
      if q1.1 < 3/10 then pyUniform 5 100 r q1.2 else (0, q1.2)
    else (0, p3.2)
  let rainfall := pr.1
  let p4 := pyUniform (9/10) (11/10) r pr.2
  let volat := if festival = 1 then p4.1 + 1/10 else p4.1
  let mandiPrice := 120 * volat
  let p5 := pyUniform (-10) 10 r p4.2
  foldEmit (fun sku s2 =>
      histSku cfg prim dateNum weekday month fasting weddingD festival logistics
        tempMax tempMin humidity rainfall mandiPrice p5.1 region sku.1 sku.2 r s2)
    cfg.skus p5.2

/-- Lines 31-47: per-day global conditions and `for region in REGIONS`.
The wedding-density boost draw is consumed only in peak-season months. -/
def histDay (cfg : Config) (prim : Prim) (cal : Cal) (today : ℤ) (dayOffset : ℕ)
    (r : RNG) (s : RState) : List HistRow × RState :=
  let dateNum := today - (cfg.numDays : ℤ) + (dayOffset : ℤ)
  let weekday := cal.weekdayOf dateNum
  let month := cal.monthOf dateNum
  let q1 := pyRandom r s
  let fasting : ℕ := if q1.1 < 3/20 then 1 else 0
  let q2 := pyUniform 0 (3/10) r q1.2
  let pw : ℚ × RState :=
    if (cfg.seasonality.lookup month).isSome then
      let q3 := pyUniform (3/10) (3/5) r q2.2
      (q2.1 + q3.1, q3.2)
    else (q2.1, q2.2)
  let q4 := pyRandom r pw.2
  let festival : ℕ := if q4.1 < 1/20 then 1 else 0
  let q5 := pyRandom r q4.2
  let logistics : ℕ := if q5.1 < 1/50 then 1 else 0
  let baseTemp := 25 + 10 * prim.sin2pi dayOffset
  foldEmit (fun region s2 =>
      histRegion cfg prim dateNum weekday month fasting pw.1 festival logistics
        baseTemp region r s2)
    cfg.regions q5.2

/-- Lines 27-149: the historical generator.  `today` is the value of
`datetime.today()` (line 9) as a day number; the start date is
`today − numDays`. -/
def generateHistoricalSales (cfg : Config) (prim : Prim) (cal : Cal) (today : ℤ)
    (r : RNG) : List HistRow :=
  (foldEmit (fun dayOffset s => histDay cfg prim cal today dayOffset r s)
    (List.range' 0 cfg.numDays) ⟨0, 0⟩).1

/-- One output row of the intraday telemetry generator (lines 196-208). -/
structure IntraRow : Type where
  datetime : ℤ
  region_id : String
  mandi_price_per_kg : ℚ
  pos_transactions_last_hour : ℤ
  vehicle_delay_minutes : ℤ
  weather_now_temp : ℚ
  weather_now_humidity : ℚ
  logistics_disruption_flag : ℕ
  intraday_baseline_pred : ℚ
  intraday_actual_sales_partial : ℤ
  intraday_event : String

/-- Line 190: the fixed 24-entry hourly profile curve. -/
def hourlyProfile : List ℚ :=
  List.replicate 8 (1/100) ++
    [1/20, 2/25, 1/10, 1/10, 1/10, 1/10, 1/10, 1/10, 2/25, 1/20, 1/50, 1/100] ++
    List.replicate 4 0

/-- Lines 178-180: the POS transaction count.  Exactly one normal draw
is consumed (the Python conditional expression evaluates one branch);
the result is truncated by `int` with no clamp at zero, then halved
(and truncated again) under heavy rain. -/
def posTransactions (isDay : Bool) (event : String) (r : RNG) (s : RState) :
    ℤ × RState :=
  let g := pyNormal (if isDay then 50 else 5) (if isDay then 15 else 2) r s
  let tx := pyInt g.1
  (if event = "heavy_rain" then pyInt ((tx : ℚ) * (1/2)) else tx, g.2)

/-- Lines 182-185: the vehicle delay.  The strike delay `randint(60, 300)`
is taken when the event is a strike; a second, independent `if` (not an
`elif`) then overwrites the delay with `randint(10, 45)` whenever
`random() < 0.05`, regardless of the event. -/
def vehicleDelay (event : String) (r : RNG) (s : RState) : ℤ × RState :=
  let d : ℤ × RState := if event = "strike" then pyRandint 60 300 r s else (0, s)
  let q := pyRandom r d.2
  if q.1 < 1/20 then pyRandint 10 45 r q.2 else (d.1, q.2)

/-- Lines 162-209: one telemetry row for a given absolute hour number
`dt` (hours since the epoch; the hour of day is `dt % 24`). -/
def intraRow (now : ℤ) (hourOffset : ℕ) (region : String) (r : RNG) (s : RState) :
    IntraRow × RState :=
  let dt := now - 7 * 24 + (hourOffset : ℤ)
  let hour := dt % 24
  let isDay : Bool := if 8 ≤ hour ∧ hour ≤ 20 then true else false
  let p1 := pyUniform (-5) 5 r s
  let mandiPrice := 120 + p1.1
  let p2 := pyUniform (-2) 2 r p1.2
  let temp := 25 + (if isDay then (5:ℚ) else -5) + p2.1
  let p3 := pyUniform (-10) 10 r p2.2
  let humidity := 60 + p3.1
  let q1 := pyRandom r p3.2
  let q2 := pyRandom r q1.2
  let event := if q2.1 < 1/200 then "strike"
    else if q1.1 < 1/100 then "heavy_rain" else "none"
  let tx := posTransactions isDay event r q2.2
  let dl := vehicleDelay event r tx.2
  let expectedFraction := if hour < 24 then hourlyProfile.getD hour.toNat 0 else 0
  let baselineHourly := (1000 : ℚ) * expectedFraction
  let p4 := pyUniform (4/5) (6/5) r dl.2
  let actual := pyInt (baselineHourly * p4.1)
  ({ datetime := dt
     region_id := region
     mandi_price_per_kg := pyRound mandiPrice 2
     pos_transactions_last_hour := tx.1
     vehicle_delay_minutes := dl.1
     weather_now_temp := pyRound temp 1
     weather_now_humidity := pyRound humidity 1
     logistics_disruption_flag := if 60 < dl.1 then 1 else 0
     intraday_baseline_pred := pyRound baselineHourly 2
     intraday_actual_sales_partial := actual
     intraday_event := event }, p4.2)

/-- Lines 151-213: the intraday generator.  `now` is the value of
`datetime.now()` (line 156) as an hour number, read from the wall clock
at call time; the start is `now − 7×24` hours. -/
def generateIntradayTelemetry (cfg : Config) (now : ℤ) (r : RNG) : List IntraRow :=
  (foldEmit (fun hourOffset s =>
      foldEmit (fun region s2 =>
          let p := intraRow now hourOffset region r s2
          ([p.1], p.2))
        cfg.regions s)
    (List.range' 0 (7 * 24)) ⟨0, 0⟩).1

/-- A trivial interpretation of the abstracted float primitives, used
for concrete runs (the claims settled on concrete runs do not depend on
the values the primitives return). -/
def prim0 : Prim := ⟨fun _ _ => 1, fun _ => 0⟩

/-- A trivial calendar, used for concrete runs. -/
def cal0 : Cal := ⟨fun _ => 1, fun _ => 0⟩

/-- The all-zeros random oracle (every unit draw is 0, a valid value of
`random()`; every normal draw is 0). -/
def rngZero : RNG := ⟨fun _ => 0, fun _ => 0⟩

/-- A random oracle whose normal draws are all −4 (a value in the
support of the standard normal distribution); unit draws are 0. -/
def rngNeg : RNG := ⟨fun _ => 0, fun _ => -4⟩

lemma length_histChannel (cfg : Config) (prim : Prim) (dateNum : ℤ)
    (weekday month fasting : ℕ) (weddingD : ℚ) (festival logistics : ℕ)
    (tempMax tempMin humidity rainfall mandiPrice mandiChange : ℚ)
    (region skuId : String) (pkg : ℚ) (ch : Channel) (r : RNG) (s : RState) :
    ((histChannel cfg prim dateNum weekday month fasting weddingD festival
      logistics tempMax tempMin humidity rainfall mandiPrice mandiChange
      region skuId pkg ch r s).1).length = 2 := by
  unfold histChannel
  exact (foldEmit_length
    (fun storeIdx s2 =>
      ([(histStore cfg prim dateNum weekday month fasting weddingD festival
        logistics tempMax tempMin humidity rainfall mandiPrice mandiChange
        region skuId pkg ch storeIdx r s2).1],
       (histStore cfg prim dateNum weekday month fasting weddingD festival
        logistics tempMax tempMin humidity rainfall mandiPrice mandiChange
        region skuId pkg ch storeIdx r s2).2))
    1 (List.range' 0 2) (fun a ha s2 => rfl) s).trans (by simp)

lemma length_histSku (cfg : Config) (prim : Prim) (dateNum : ℤ)
    (weekday month fasting : ℕ) (weddingD : ℚ) (festival logistics : ℕ)
    (tempMax tempMin humidity rainfall mandiPrice mandiChange : ℚ)
    (region skuId : String) (pkg : ℚ) (r : RNG) (s : RState) :
    ((histSku cfg prim dateNum weekday month fasting weddingD festival
      logistics tempMax tempMin humidity rainfall mandiPrice mandiChange
      region skuId pkg r s).1).length = cfg.channels.length * 2 := by
  unfold histSku
  exact foldEmit_length _ 2 _
    (fun a ha s2 => length_histChannel cfg prim dateNum weekday month fasting
      weddingD festival logistics tempMax tempMin humidity rainfall mandiPrice
      mandiChange region skuId pkg a r s2) s

lemma length_histRegion (cfg : Config) (prim : Prim) (dateNum : ℤ)
    (weekday month fasting : ℕ) (weddingD : ℚ) (festival logistics : ℕ)
    (baseTemp : ℚ) (region : String) (r : RNG) (s : RState) :
    ((histRegion cfg prim dateNum weekday month fasting weddingD festival
      logistics baseTemp region r s).1).length =
      cfg.skus.length * (cfg.channels.length * 2) := by
  unfold histRegion
  exact foldEmit_length _ (cfg.channels.length * 2) _
    (fun a ha s2 => length_histSku cfg prim dateNum weekday month fasting
      weddingD festival logistics _ _ _ _ _ _ region a.1 a.2 r s2) _

lemma length_histDay (cfg : Config) (prim : Prim) (cal : Cal) (today : ℤ)
    (dayOffset : ℕ) (r : RNG) (s : RState) :
    ((histDay cfg prim cal today dayOffset r s).1).length =
      cfg.regions.length * (cfg.skus.length * (cfg.channels.length * 2)) := by
  unfold histDay
  exact foldEmit_length _ (cfg.skus.length * (cfg.channels.length * 2)) _
    (fun a ha s2 => length_histRegion cfg prim _ _ _ _ _ _ _ _ a r s2) _

lemma length_generateHistoricalSales (cfg : Config) (prim : Prim) (cal : Cal)
    (today : ℤ) (r : RNG) :
    (generateHistoricalSales cfg prim cal today r).length =
      cfg.numDays * (cfg.regions.length * (cfg.skus.length * (cfg.channels.length * 2))) := by
  unfold generateHistoricalSales
  rw [foldEmit_length _ (cfg.regions.length * (cfg.skus.length * (cfg.channels.length * 2))) _
    (fun a ha s => length_histDay cfg prim cal today a r s)]
  simp

lemma length_generateIntradayTelemetry (cfg : Config) (now : ℤ) (r : RNG) :
    (generateIntradayTelemetry cfg now r).length = 7 * 24 * cfg.regions.length := by
  unfold generateIntradayTelemetry
  rw [foldEmit_length _ cfg.regions.length _
    (fun a ha s => (foldEmit_length
      (fun region s2 => ([(intraRow now a region r s2).1], (intraRow now a region r s2).2))
      1 cfg.regions (fun b hb s2 => rfl) s).trans (by simp))]
  simp

lemma intraday_head_ref (now : ℤ) (r : RNG) :
    (generateIntradayTelemetry refConfig now r).head? =
      some (intraRow now 0 "Pune" r ⟨0, 0⟩).1 := rfl

lemma pyRandint_bounds (a b : ℤ) (hab : a ≤ b) (r : RNG) (s : RState)
    (h0 : 0 ≤ r.unit s.u) (h1 : r.unit s.u < 1) :
    a ≤ (pyRandint a b r s).1 ∧ (pyRandint a b r s).1 ≤ b := by
  have hn : (0:ℚ) ≤ ((b - a + 1 : ℤ) : ℚ) := by
    exact_mod_cast (by omega : (0:ℤ) ≤ b - a + 1)
  have hpos : (0:ℚ) < ((b - a + 1 : ℤ) : ℚ) := by
    exact_mod_cast (by omega : (0:ℤ) < b - a + 1)
  constructor
  · have hfl : (0:ℤ) ≤ ⌊r.unit s.u * ((b - a + 1 : ℤ) : ℚ)⌋ :=
      Int.floor_nonneg.mpr (mul_nonneg h0 hn)
    show a ≤ a + ⌊r.unit s.u * ((b - a + 1 : ℤ) : ℚ)⌋
    linarith
  · have hlt : r.unit s.u * ((b - a + 1 : ℤ) : ℚ) < ((b - a + 1 : ℤ) : ℚ) := by
      calc r.unit s.u * ((b - a + 1 : ℤ) : ℚ) < 1 * ((b - a + 1 : ℤ) : ℚ) :=
            mul_lt_mul_of_pos_right h1 hpos
        _ = ((b - a + 1 : ℤ) : ℚ) := one_mul _
    have hfl : ⌊r.unit s.u * ((b - a + 1 : ℤ) : ℚ)⌋ < b - a + 1 :=
      Int.floor_lt.mpr (by exact_mod_cast hlt)
    show a + ⌊r.unit s.u * ((b - a + 1 : ℤ) : ℚ)⌋ ≤ b
    linarith

/-- Claim C9 (amended): for a strike row the delay is drawn from the
strike window `randint(60, 300)` — but only when the independent
5%-probability minor-delay draw does not fire; that second draw is not
restricted to non-strike rows and overwrites the strike delay with
`randint(10, 45)` when it fires. -/
theorem strike_delay_window (event : String) (r : RNG) (su sg : ℕ)
    (hvalid : ∀ n, 0 ≤ r.unit n ∧ r.unit n < 1) (hst : event = "strike") :
    (¬ r.unit (su + 1) < 1/20 →
      60 ≤ (vehicleDelay event r ⟨su, sg⟩).1 ∧
        (vehicleDelay event r ⟨su, sg⟩).1 ≤ 300) ∧
    (r.unit (su + 1) < 1/20 →
      10 ≤ (vehicleDelay event r ⟨su, sg⟩).1 ∧
        (vehicleDelay event r ⟨su, sg⟩).1 ≤ 45) := by
  subst hst
  constructor
  · intro h
    have h20 : ¬ r.unit (su + 1) < (20⁻¹ : ℚ) := by
      rwa [show (20⁻¹ : ℚ) = 1/20 by norm_num]
    have hd : (vehicleDelay "strike" r ⟨su, sg⟩).1 = (pyRandint 60 300 r ⟨su, sg⟩).1 := by
      simp [vehicleDelay, pyRandom, pyRandint, h20]
    rw [hd]
    exact pyRandint_bounds 60 300 (by norm_num) r ⟨su, sg⟩
      (hvalid su).1 (hvalid su).2
  · intro h
    have h20 : r.unit (su + 1) < (20⁻¹ : ℚ) := by
      rwa [show (20⁻¹ : ℚ) = 1/20 by norm_num]
    have hd : (vehicleDelay "strike" r ⟨su, sg⟩).1 =
        (pyRandint 10 45 r ⟨su + 1 + 1, sg⟩).1 := by
      simp [vehicleDelay, pyRandom, pyRandint, h20]
    rw [hd]
    exact pyRandint_bounds 10 45 (by norm_num) r ⟨su + 1 + 1, sg⟩
      (hvalid (su + 1 + 1)).1 (hvalid (su + 1 + 1)).2

theorem strike_delay_window_witness :
    (∀ n, 0 ≤ rngZero.unit n ∧ rngZero.unit n < 1) ∧
    ((¬ rngZero.unit (0 + 1) < 1/20 →
        60 ≤ (vehicleDelay "strike" rngZero ⟨0, 0⟩).1 ∧
          (vehicleDelay "strike" rngZero ⟨0, 0⟩).1 ≤ 300) ∧
      (rngZero.unit (0 + 1) < 1/20 →
        10 ≤ (vehicleDelay "strike" rngZero ⟨0, 0⟩).1 ∧
          (vehicleDelay "strike" rngZero ⟨0, 0⟩).1 ≤ 45)) :=
  ⟨fun _ => ⟨by norm_num [rngZero], by norm_num [rngZero]⟩,
    strike_delay_window "strike" rngZero 0 0
      (fun _ => ⟨by norm_num [rngZero], by norm_num [rngZero]⟩) rfl⟩

/-- Claim C9 is false as stated: with the all-zeros oracle (strike
draw 60, minor-delay probability draw 0 < 0.05 fires, minor delay 10)
a strike gets `vehicle_delay_minutes = 10`, outside `[60, 300]`: the
minor delay is applied even when the event is a strike. -/
theorem strike_delay_counterexample :
    (vehicleDelay "strike" rngZero ⟨0, 0⟩).1 = 10 ∧
    ¬ (60 ≤ (vehicleDelay "strike" rngZero ⟨0, 0⟩).1) := by
  have h : (vehicleDelay "strike" rngZero ⟨0, 0⟩).1 = 10 := by
    norm_num [vehicleDelay, pyRandint, pyRandom, rngZero]
  exact ⟨h, by rw [h]; norm_num⟩

/-- Claim C10: the intraday generator can emit a row with a negative
POS transaction count: at a night hour the count is
`int(normalvariate(5, 2))` with no clamp at zero, so a normal draw of
−4 (in the support of the distribution) yields `5 + 2·(−4) = −3`. -/
theorem intraday_negative_pos_transactions :
    ∃ row ∈ generateIntradayTelemetry refConfig 168 rngNeg,
      row.pos_transactions_last_hour < 0 := by
  refine ⟨(intraRow 168 0 "Pune" rngNeg ⟨0, 0⟩).1, List.mem_of_mem_head? ?_, ?_⟩
  · rw [Option.mem_def, intraday_head_ref]
  · norm_num [intraRow, posTransactions, pyNormal, pyUniform, pyRandom, rngNeg, pyInt]
    split <;> norm_num

/-- The spec's notion of an invalid configuration: an empty
region/SKU/channel set, a negative SKU unit size, or a weekday-factor
table without exactly 7 entries for some channel. -/
def configInvalid (cfg : Config) : Prop :=
  cfg.regions = [] ∨ cfg.skus = [] ∨ cfg.channels = [] ∨
    (∃ p ∈ cfg.skus, p.2 < 0) ∨
    (∃ ch ∈ cfg.channels, ((cfg.weekdayFactors ch)).length ≠ 7)

/-- The reference configuration with a negative unit size for the 1 kg
SKU: an invalid configuration in the sense of the spec. -/
def badSkuConfig : Config :=
  { refConfig with
    skus := [("MUSH-200g", 1/5), ("MUSH-250g", 1/4), ("MUSH-500g", 1/2),
      ("MUSH-1kg", -1), ("MUSH-5kg", 5)] }

/-- The reference configuration with an empty region set. -/
def emptyRegionConfig : Config := { refConfig with regions := [] }

/-- Claim C1 is false as stated: under an invalid configuration (a
negative unit size for the 1 kg SKU) the historical generator raises no
configuration error and emits rows — the generated list is not empty,
contradicting "they never emit a row under such a configuration". -/
theorem config_error_counterexample :
    configInvalid badSkuConfig ∧
    generateHistoricalSales badSkuConfig prim0 cal0 0 rngZero ≠ [] := by
  constructor
  · right; right; right; left
    refine ⟨("MUSH-1kg", -1), ?_, by norm_num⟩
    simp [badSkuConfig, refConfig]
  · intro h
    have hl := length_generateHistoricalSales badSkuConfig prim0 cal0 0 rngZero
    rw [h] at hl
    simp [badSkuConfig, refConfig] at hl

/-- Claim C1 (amended): the generators perform no configuration
validation at all.  Under the invalid negative-unit-size configuration
the historical generator still emits the full 360×10×5×2×2 = 72000
rows and the intraday generator its full 1680 rows; under an empty
region set both generators emit zero rows and terminate normally —
in no case is a configuration error raised (the embedded generators
are total functions with no error outcome). -/
theorem no_config_validation :
    configInvalid badSkuConfig ∧
    (generateHistoricalSales badSkuConfig prim0 cal0 0 rngZero).length = 72000 ∧
    (generateIntradayTelemetry badSkuConfig 168 rngZero).length = 1680 ∧
    configInvalid emptyRegionConfig ∧
    generateHistoricalSales emptyRegionConfig prim0 cal0 0 rngZero = [] ∧
    generateIntradayTelemetry emptyRegionConfig 168 rngZero = [] := by
  refine ⟨?_, ?_, ?_, ?_, ?_, ?_⟩
  · right; right; right; left
    refine ⟨("MUSH-1kg", -1), ?_, by norm_num⟩
    simp [badSkuConfig, refConfig]
  · rw [length_generateHistoricalSales]
    norm_num [badSkuConfig, refConfig]
  · rw [length_generateIntradayTelemetry]
    norm_num [badSkuConfig, refConfig]
  · left
    simp [emptyRegionConfig]
  · rw [← List.length_eq_zero, length_generateHistoricalSales]
    simp [emptyRegionConfig]
  · rw [← List.length_eq_zero, length_generateIntradayTelemetry]
    simp [emptyRegionConfig]

/-- Claim C8 (amended): the historical generator iterates the full
cross-product of days × regions × SKUs × channels × stores, but the
store count is the hard-coded literal 2 (line 76), not the injected
`STORES_PER_REGION` constant: every run emits exactly
`numDays × |regions| × |SKUs| × |channels| × 2` rows. -/
theorem hist_cross_product_row_count (cfg : Config) (prim : Prim) (cal : Cal)
    (today : ℤ) (r : RNG) :
    (generateHistoricalSales cfg prim cal today r).length =
      cfg.numDays * cfg.regions.length * cfg.skus.length * cfg.channels.length * 2 := by
  rw [length_generateHistoricalSales]
  ring

/-- Claim C8 is false as stated: on the reference configuration
(`STORES_PER_REGION = 5`) the generator emits 72000 rows, not
`NUM_DAYS × |regions| × |SKUs| × |channels| × STORES_PER_REGION`
= 180000: the store loop uses the hard-coded literal 2. -/
theorem stores_per_region_counterexample :
    (generateHistoricalSales refConfig prim0 cal0 0 rngZero).length ≠
      refConfig.numDays * refConfig.regions.length * refConfig.skus.length *
        refConfig.channels.length * refConfig.storesPerRegion := by
  rw [length_generateHistoricalSales]
  norm_num [refConfig]

/-- Claim C6 (amended): each generator is a pure function of the
configuration, the abstracted float primitives, the calendar, the wall
clock reading and the random source: two runs that agree on all of
these produce identical row lists.  (Agreement on the clock reading is
required: see the counterexample.) -/
theorem generators_deterministic (cfg1 cfg2 : Config) (prim1 prim2 : Prim)
    (cal1 cal2 : Cal) (today1 today2 now1 now2 : ℤ) (r1 r2 : RNG)
    (hcfg : cfg1 = cfg2) (hprim : prim1 = prim2) (hcal : cal1 = cal2)
    (htoday : today1 = today2) (hnow : now1 = now2) (hr : r1 = r2) :
    generateHistoricalSales cfg1 prim1 cal1 today1 r1 =
      generateHistoricalSales cfg2 prim2 cal2 today2 r2 ∧
    generateIntradayTelemetry cfg1 now1 r1 = generateIntradayTelemetry cfg2 now2 r2 := by
  subst hcfg; subst hprim; subst hcal; subst htoday; subst hnow; subst hr
  exact ⟨rfl, rfl⟩

theorem generators_deterministic_witness :
    refConfig = refConfig ∧
    (generateHistoricalSales refConfig prim0 cal0 0 rngZero =
        generateHistoricalSales refConfig prim0 cal0 0 rngZero ∧
      generateIntradayTelemetry refConfig 168 rngZero =
        generateIntradayTelemetry refConfig 168 rngZero) :=
  ⟨rfl, generators_deterministic refConfig refConfig prim0 prim0 cal0 cal0 0 0 168 168
    rngZero rngZero rfl rfl rfl rfl rfl rfl⟩

/-- Claim C6 is false as stated: the intraday generator reads the wall
clock (`datetime.now()`, line 156), which is part of neither the
configuration nor the random source.  Two runs with the identical
configuration and the identical random oracle but clock readings one
hour apart produce different rows (the first row's datetime differs),
so re-running with identical configuration and seed sequence does not
by itself reproduce byte-identical rows. -/
theorem clock_dependence_counterexample :
    generateIntradayTelemetry refConfig 168 rngZero ≠
      generateIntradayTelemetry refConfig 169 rngZero := by
  intro h
  have e1 : (generateIntradayTelemetry refConfig 168 rngZero).head?.map
      (fun row => row.datetime) = some 0 := by
    rw [intraday_head_ref]
    norm_num [intraRow]
  have e2 : (generateIntradayTelemetry refConfig 169 rngZero).head?.map
      (fun row => row.datetime) = some 1 := by
    rw [intraday_head_ref]
    norm_num [intraRow]
  rw [h, e2] at e1
  exact absurd e1 (by simp)
